import Mathlib

/-!
Verification of the admin authentication / session / rate-limiting layer of
the portfolio backend (`app/routes/admin.py`), shallowly embedded in Lean 4.

Modelling conventions:
  * Time is `Nat` seconds (the code uses `time.time()` floats; all comparisons
    are order comparisons, so the embedding is faithful on integral times).
  * The process-wide mutable dictionaries `login_attempts`, `active_sessions`
    and the set `token_blacklist` are modelled as a `SecState` record of
    total functions `String → Option _` / `String → Bool`; `del d[k]`,
    `d[k] = v` and `s.add(x)` become the pointwise updates `dictDelete`,
    `dictInsert`, `setAdd`.
  * A presented JWT is modelled as its raw string (the identity used by the
    blacklist) together with its decoded claims and a flag saying whether its
    signature verifies under the server's key; `jwt.decode` is embedded as
    `jwtDecode` following PyJWT's validation order (signature, then `exp`,
    then `aud`), with PyJWT's exception messages as string constants.
  * Route handlers become pure functions from the pre-state and the request
    data (fresh random values such as session ids are passed as parameters)
    to a result together with the post-state; a raised `HTTPException`
    becomes the `.error` side of `Except`.
-/

namespace Portfolio

/-- Security configuration constants (admin.py lines 22-27). -/
def SECRET_KEY : String := "cyber-portfolio-super-secure-jwt-key-2024"

def ACCESS_TOKEN_EXPIRE_MINUTES : Nat := 30

def MAX_LOGIN_ATTEMPTS : Nat := 5

def LOCKOUT_DURATION : Nat := 3600

/-- Issuer claim put into every issued token (admin.py line 75). -/
def ISSUER : String := "cyber-portfolio-admin"

/-- Audience claim put into every issued token (admin.py line 76). -/
def AUDIENCE : String := "cyber-portfolio-frontend"

/-- Admin credentials from configuration (app/core/config.py). -/
structure AdminSettings where
  ADMIN_USERNAME : String
  ADMIN_PASSWORD : String
deriving DecidableEq, Repr

/-- The configured defaults of `Settings` in app/core/config.py. -/
def defaultSettings : AdminSettings :=
  { ADMIN_USERNAME := "Mr.hacker", ADMIN_PASSWORD := "Mr.hacker@19" }

/-- One value of the `active_sessions` dictionary (admin.py lines 237-242). -/
structure SessionData where
  username : String
  ip_address : String
  login_time : Nat
  user_agent : String
deriving DecidableEq, Repr

/-- The decoded payload of a JWT issued by `create_access_token`
(admin.py lines 63-80 together with the `token_data` dict of lines 249-255).
`session_id` is `none` when the key is absent or `null`. -/
structure Claims where
  sub : String
  typ : String
  session_id : Option String
  ip : String
  security_level : String
  exp : Nat
  iat : Nat
  jti : String
  iss : String
  aud : String
deriving DecidableEq, Repr

/-- A presented bearer token: `raw` is the token string itself (the identity
`token_blacklist` stores), `claims` its payload, and `sigOk` whether the
signature verifies under `SECRET_KEY`. -/
structure Token where
  raw : String
  claims : Claims
  sigOk : Bool
deriving DecidableEq, Repr

/-- The process-wide security storage (admin.py lines 30-32):
`login_attempts` maps a client IP to `(attempts, first_attempt, last_attempt)`,
`active_sessions` maps a session id to its metadata, and `token_blacklist`
is the set of revoked token strings. -/
structure SecState where
  login_attempts : String → Option (Nat × Nat × Nat)
  active_sessions : String → Option SessionData
  token_blacklist : String → Bool

/-- `del d[k]` on a Python dict (no-op when the key is absent). -/
def dictDelete {α : Type} (d : String → Option α) (k : String) : String → Option α :=
  fun x => if x = k then none else d x

/-- `d[k] = v` on a Python dict. -/
def dictInsert {α : Type} (d : String → Option α) (k : String) (v : α) :
    String → Option α :=
  fun x => if x = k then some v else d x

/-- `s.add(x)` on a Python set of strings. -/
def setAdd (s : String → Bool) (x : String) : String → Bool :=
  fun y => if y = x then true else s y

/-- Errors raised by PyJWT's `jwt.decode`. -/
inductive JwtError where
  | expiredSignature
  | invalidToken (msg : String)
deriving DecidableEq, Repr

/-- PyJWT's exception message for a failed signature check. -/
def sigFailMsg : String := "Signature verification failed"

/-- PyJWT's exception message for an audience mismatch. -/
def audienceFailMsg : String := "Invalid audience"

/-- `jwt.decode(token, SECRET_KEY, algorithms=[ALGORITHM],
audience="cyber-portfolio-frontend")` as called on admin.py line 89:
verifies the signature, then the `exp` claim (expired when `exp ≤ now`),
then the audience. -/
def jwtDecode (tok : Token) (now : Nat) : Except JwtError Claims :=
  if tok.sigOk = false then .error (.invalidToken sigFailMsg)
  else if tok.claims.exp ≤ now then .error .expiredSignature
  else if tok.claims.aud ≠ AUDIENCE then .error (.invalidToken audienceFailMsg)
  else .ok tok.claims

/-- The authentication failure taxonomy: each constructor is one
`HTTPException` site of admin.py. -/
inductive AuthError where
  | notAuthenticated
  | tokenRevoked
  | tokenExpired
  | invalidToken (msg : String)
  | invalidIssuer
  | sessionExpired
  | rateLimited (remainingSeconds : Nat)
  | invalidCredentials
deriving DecidableEq, Repr

/-- The HTTP status code each failure is raised with. -/
def httpStatus : AuthError → Nat
  | .rateLimited _ => 429
  | _ => 401

/-- The `detail` string each failure is raised with (admin.py lines 87, 93,
97, 99, 111, 187, 195, 229). -/
def httpDetail : AuthError → String
  | .notAuthenticated => "Not authenticated"
  | .tokenRevoked => "Token revoked"
  | .tokenExpired => "Token expired"
  | .invalidToken msg => "Invalid token: " ++ msg
  | .invalidIssuer => "Invalid token issuer"
  | .sessionExpired => "Session expired"
  | .rateLimited r =>
      "Too many login attempts. Account locked for " ++ toString (r / 60) ++ " minutes."
  | .invalidCredentials => "Invalid credentials"

/-- `verify_token` (admin.py lines 82-99): blacklist check first, then
`jwt.decode` (signature / expiry / audience), then the issuer check.
`ExpiredSignatureError` is reported as "Token expired", any other
`InvalidTokenError` as "Invalid token: {e}". -/
def verify_token (st : SecState) (tok : Token) (now : Nat) : Except AuthError Claims :=
  if st.token_blacklist tok.raw then .error .tokenRevoked
  else
    match jwtDecode tok now with
    | .error .expiredSignature => .error .tokenExpired
    | .error (.invalidToken msg) => .error (.invalidToken msg)
    | .ok payload =>
        if payload.iss ≠ ISSUER then .error .invalidIssuer
        else .ok payload

/-- `verify_admin_token` (admin.py lines 173-197): the token extracted from
the request is passed as `tok?` (`none` when no extraction method found one).
The session check mirrors `if session_id and session_id not in
active_sessions`: Python truthiness skips the check when `session_id` is
absent, `null` or the empty string. -/
def verify_admin_token (st : SecState) (tok? : Option Token) (now : Nat) :
    Except AuthError Claims :=
  match tok? with
  | none => .error .notAuthenticated
  | some tok =>
    match verify_token st tok now with
    | .error e => .error e
    | .ok payload =>
      match payload.session_id with
      | none => .ok payload
      | some sid =>
          if sid ≠ "" ∧ st.active_sessions sid = none then .error .sessionExpired
          else .ok payload

/-- `check_rate_limit` (admin.py lines 101-115): raises 429 while the IP is
locked out (`attempts ≥ MAX_LOGIN_ATTEMPTS` and `now - first <
LOCKOUT_DURATION`), deletes the record once the lockout window has elapsed,
and otherwise leaves the state alone. The 429 carries
`remaining_time = LOCKOUT_DURATION - (now - first)`. -/
def check_rate_limit (st : SecState) (client_ip : String) (now : Nat) :
    Except AuthError SecState :=
  match st.login_attempts client_ip with
  | none => .ok st
  | some (attempts, first_attempt, _last) =>
    if MAX_LOGIN_ATTEMPTS ≤ attempts ∧ now - first_attempt < LOCKOUT_DURATION then
      .error (.rateLimited (LOCKOUT_DURATION - (now - first_attempt)))
    else if LOCKOUT_DURATION ≤ now - first_attempt then
      .ok { st with login_attempts := dictDelete st.login_attempts client_ip }
    else
      .ok st

/-- `track_failed_attempt` (admin.py lines 117-124). -/
def track_failed_attempt (st : SecState) (client_ip : String) (now : Nat) : SecState :=
  match st.login_attempts client_ip with
  | none =>
      { st with login_attempts := dictInsert st.login_attempts client_ip (1, now, now) }
  | some (attempts, first_attempt, _last) =>
      { st with login_attempts :=
          dictInsert st.login_attempts client_ip (attempts + 1, first_attempt, now) }

/-- `clear_attempts` (admin.py lines 126-129). -/
def clear_attempts (st : SecState) (client_ip : String) : SecState :=
  { st with login_attempts := dictDelete st.login_attempts client_ip }

/-- `create_access_token` (admin.py lines 63-80) applied to the `token_data`
dict built in `admin_login` (lines 249-255): the fresh random `jti` and the
raw encoded string are passed as parameters. -/
def create_access_token (username session_id client_ip : String)
    (expireSeconds now : Nat) (jti raw : String) : Token :=
  { raw := raw
    claims :=
      { sub := username
        typ := "access"
        session_id := some session_id
        ip := client_ip
        security_level := "maximum"
        exp := now + expireSeconds
        iat := now
        jti := jti
        iss := ISSUER
        aud := AUDIENCE }
    sigOk := true }

/-- `admin_login` (admin.py lines 200-294): rate-limit check, constant-time
credential comparison, then on failure `track_failed_attempt` + 401, and on
success `clear_attempts`, session registration and token issuance. The fresh
session id, `jti` and encoded token string are parameters. Returns the
result together with the post-state. -/
def admin_login (settings : AdminSettings) (st : SecState)
    (client_ip username password : String) (remember : Bool)
    (user_agent fresh_session jti raw : String) (now : Nat) :
    Except AuthError (Token × String) × SecState :=
  match check_rate_limit st client_ip now with
  | .error e => (.error e, st)
  | .ok st1 =>
    if username = settings.ADMIN_USERNAME ∧ password = settings.ADMIN_PASSWORD then
      let st2 := clear_attempts st1 client_ip
      let newSession : SessionData :=
        { username := username, ip_address := client_ip,
          login_time := now, user_agent := user_agent }
      let st3 :=
        { st2 with active_sessions := dictInsert st2.active_sessions fresh_session newSession }
      let expireSeconds := (if remember then 60 * 24 * 7 else ACCESS_TOKEN_EXPIRE_MINUTES) * 60
      let tok := create_access_token username fresh_session client_ip expireSeconds now jti raw
      (.ok (tok, fresh_session), st3)
    else
      (.error .invalidCredentials, track_failed_attempt st1 client_ip now)

/-- `admin_logout` (admin.py lines 296-348): best-effort — when no token was
presented or `verify_token` raises, the state is untouched and the response
still succeeds. Otherwise the presented token string is blacklisted and the
session named by its `session_id` is deleted when registered. The returned
`Bool` is the response's `session_cleared` field (`session_id is not None`). -/
def admin_logout (st : SecState) (tok? : Option Token) (now : Nat) : SecState × Bool :=
  match tok? with
  | none => (st, false)
  | some tok =>
    match verify_token st tok now with
    | .error _ => (st, false)
    | .ok payload =>
      let st1 := { st with token_blacklist := setAdd st.token_blacklist tok.raw }
      match payload.session_id with
      | none => (st1, false)
      | some sid =>
          ({ st1 with active_sessions := dictDelete st1.active_sessions sid }, true)

/-- The `StandardResponse` fields the session routes fill in. -/
structure RouteResponse where
  success : Bool
  message : String
deriving DecidableEq, Repr

/-- `terminate_session` (admin.py lines 376-394): deletes the named session
only when it exists and belongs to the caller, and unconditionally answers
`success = True, "Session terminated successfully"`. -/
def terminate_session (st : SecState) (token_data : Claims) (session_id : String) :
    SecState × RouteResponse :=
  let username := token_data.sub
  let st' :=
    match st.active_sessions session_id with
    | none => st
    | some d =>
        if d.username = username then
          { st with active_sessions := dictDelete st.active_sessions session_id }
        else st
  (st', { success := true, message := "Session terminated successfully" })

/-- `emergency_lockdown` (admin.py lines 1311-1333): deletes every session
whose id differs from the caller's `session_id` claim and whose owner is the
caller's `sub`. -/
def emergency_lockdown (st : SecState) (token_data : Claims) : SecState :=
  { st with active_sessions := fun sid =>
      match st.active_sessions sid with
      | none => none
      | some d =>
          if some sid ≠ token_data.session_id ∧ d.username = token_data.sub then none
          else some d }

/-- `reset_security` (admin.py lines 1335-1353): clears `login_attempts` and
`token_blacklist`, touching nothing else. -/
def reset_security (st : SecState) : SecState :=
  { st with login_attempts := fun _ => none, token_blacklist := fun _ => false }

/-! ### Characterization lemmas shared by the claim theorems -/

/-- `verify_token` succeeds exactly on a non-blacklisted, signed, unexpired
token with the configured audience and issuer, and then returns the token's
own claims. -/
theorem verify_token_eq_ok_iff (st : SecState) (tok : Token) (now : Nat) (p : Claims) :
    verify_token st tok now = .ok p ↔
      (p = tok.claims ∧ st.token_blacklist tok.raw = false ∧ tok.sigOk = true ∧
       now < tok.claims.exp ∧ tok.claims.aud = AUDIENCE ∧ tok.claims.iss = ISSUER) := by
  unfold verify_token jwtDecode
  cases hb : st.token_blacklist tok.raw <;>
    cases hs : tok.sigOk <;>
      by_cases he : tok.claims.exp ≤ now <;>
        by_cases ha : tok.claims.aud = AUDIENCE <;>
          by_cases hi : tok.claims.iss = ISSUER <;>
            simp [hb, hs, he, ha, hi, Nat.not_le, eq_comm] <;> omega

/-- The session check of `verify_admin_token` passes on `sid?`. -/
def session_check_passes (st : SecState) (sid? : Option String) : Prop :=
  ∀ sid, sid? = some sid → sid ≠ "" → st.active_sessions sid ≠ none

/-- Unfolding equation for `verify_admin_token` on a presented token. -/
theorem verify_admin_token_some_eq (st : SecState) (tok : Token) (now : Nat) :
    verify_admin_token st (some tok) now =
      (match verify_token st tok now with
       | .error e => .error e
       | .ok payload =>
         match payload.session_id with
         | none => .ok payload
         | some sid =>
             if sid ≠ "" ∧ st.active_sessions sid = none then .error .sessionExpired
             else .ok payload) := rfl

/-- `verify_admin_token` succeeds exactly when `verify_token` does and the
session check passes, and then returns the token's own claims. -/
theorem verify_admin_token_eq_ok_iff (st : SecState) (tok : Token) (now : Nat) (p : Claims) :
    verify_admin_token st (some tok) now = .ok p ↔
      (p = tok.claims ∧ verify_token st tok now = .ok tok.claims ∧
       session_check_passes st tok.claims.session_id) := by
  rw [verify_admin_token_some_eq]
  cases hv : verify_token st tok now with
  | error e => simp [hv]
  | ok q =>
    have hq : q = tok.claims := ((verify_token_eq_ok_iff st tok now q).mp hv).1
    subst hq
    cases hsid : tok.claims.session_id with
    | none =>
      simp only [session_check_passes, hsid]
      simp [hv, eq_comm]
    | some sid =>
      by_cases hne : sid = ""
      · subst hne
        simp only [session_check_passes, hsid]
        simp [hv, eq_comm]
      · by_cases hreg : st.active_sessions sid = none
        · simp only [session_check_passes, hsid]
          simp [hne, hreg]
        · simp only [session_check_passes, hsid]
          simp [hne, hreg, hv, eq_comm]
          exact fun _ h => hreg h.symm

/-- When `verify_token` fails, `verify_admin_token` propagates the failure. -/
theorem verify_admin_token_eq_error_of_verify_token (st : SecState) (tok : Token)
    (now : Nat) (e : AuthError) (h : verify_token st tok now = .error e) :
    verify_admin_token st (some tok) now = .error e := by
  rw [verify_admin_token_some_eq, h]

/-- On a valid token whose (non-empty) session id is not registered,
`verify_admin_token` fails with the session-expired error. -/
theorem verify_admin_token_session_expired (st : SecState) (tok : Token) (now : Nat)
    (sid : String) (hok : verify_token st tok now = .ok tok.claims)
    (hsid : tok.claims.session_id = some sid) (hne : sid ≠ "")
    (hreg : st.active_sessions sid = none) :
    verify_admin_token st (some tok) now = .error .sessionExpired := by
  rw [verify_admin_token_some_eq, hok]
  simp only [hsid]
  simp [hne, hreg]

/-! ### Concrete fixtures used by counterexamples and witnesses -/

/-- A state with no sessions, no blacklisted tokens, no attempt records. -/
def emptyState : SecState :=
  { login_attempts := fun _ => none, active_sessions := fun _ => none,
    token_blacklist := fun _ => false }

/-- Claims of a well-formed access token for `Mr.hacker`, parameterized by
the session id claim and expiry. -/
def mkClaims (sid? : Option String) (exp : Nat) : Claims :=
  { sub := "Mr.hacker", typ := "access", session_id := sid?, ip := "1.2.3.4",
    security_level := "maximum", exp := exp, iat := 0, jti := "jti-0",
    iss := ISSUER, aud := AUDIENCE }

/-- A correctly signed token with the given raw string, session id and expiry. -/
def mkToken (raw : String) (sid? : Option String) (exp : Nat) : Token :=
  { raw := raw, claims := mkClaims sid? exp, sigOk := true }

/-- Session metadata for `Mr.hacker` used in the fixtures. -/
def hackerSession : SessionData :=
  { username := "Mr.hacker", ip_address := "1.2.3.4", login_time := 0,
    user_agent := "ua" }

/-- Session metadata for a different user `other` used in the fixtures. -/
def otherSession : SessionData :=
  { username := "other", ip_address := "5.6.7.8", login_time := 0,
    user_agent := "ua2" }

/-- A registry holding sessions `sidA`, `sidB`, `sidC` of `Mr.hacker` and
`sidD` of `other`. -/
def fourSessionState : SecState :=
  { emptyState with active_sessions := dictInsert (dictInsert (dictInsert (dictInsert emptyState.active_sessions "sidA" hackerSession) "sidB" hackerSession) "sidC" hackerSession) "sidD" otherSession }

/-! ### C1 — token acceptance conditions on protected routes -/

/-- C1 counterexample: a signed, unexpired, non-blacklisted token with
correct issuer and audience whose claims carry `session_id = ""` is accepted
by `verify_admin_token` against the empty registry, although its session_id
is present in the claims and is not a key of the session registry — the code
guard `if session_id and session_id not in active_sessions` skips the check
for a falsy (empty-string) session id. -/
theorem claim1_counterexample_empty_session_id :
    verify_admin_token emptyState (some (mkToken "t-empty" (some "") 1000)) 10
        = .ok (mkClaims (some "") 1000) ∧
    (mkToken "t-empty" (some "") 1000).claims.session_id = some "" ∧
    emptyState.active_sessions "" = none :=
  ⟨rfl, rfl, rfl⟩

/-- C1 (amended): whenever `verify_admin_token` accepts a presented token and
returns claims to the handler, the returned claims are the token's own, the
token string is not in the revocation set, its signature and expiry are
valid, its issuer and audience are the configured values, and when the
claims carry a NON-EMPTY session_id that session_id is a key of the session
registry. -/
theorem claim1_token_acceptance_conditions (st : SecState) (tok : Token) (now : Nat)
    (p : Claims) (h : verify_admin_token st (some tok) now = .ok p) :
    p = tok.claims ∧
    st.token_blacklist tok.raw = false ∧
    tok.sigOk = true ∧
    now < tok.claims.exp ∧
    tok.claims.iss = ISSUER ∧
    tok.claims.aud = AUDIENCE ∧
    (∀ sid, tok.claims.session_id = some sid → sid ≠ "" →
        st.active_sessions sid ≠ none) := by
  obtain ⟨hp, hok, hsess⟩ := (verify_admin_token_eq_ok_iff st tok now p).mp h
  obtain ⟨-, hbl, hsig, hexp, haud, hiss⟩ := (verify_token_eq_ok_iff st tok now _).mp hok
  exact ⟨hp, hbl, hsig, hexp, hiss, haud, hsess⟩

/-- C1 witness: the amended theorem applied to a concrete accepted request
(a valid token for registered session `sidA`). -/
theorem claim1_token_acceptance_conditions_witness :
    (mkToken "tA" (some "sidA") 1000).claims = mkClaims (some "sidA") 1000 ∧
    fourSessionState.token_blacklist "tA" = false ∧
    (mkToken "tA" (some "sidA") 1000).sigOk = true ∧
    (10 : Nat) < (mkToken "tA" (some "sidA") 1000).claims.exp ∧
    (mkToken "tA" (some "sidA") 1000).claims.iss = ISSUER ∧
    (mkToken "tA" (some "sidA") 1000).claims.aud = AUDIENCE ∧
    (∀ sid, (mkToken "tA" (some "sidA") 1000).claims.session_id = some sid →
        sid ≠ "" → fourSessionState.active_sessions sid ≠ none) := by
  have h := claim1_token_acceptance_conditions fourSessionState
    (mkToken "tA" (some "sidA") 1000) 10 (mkClaims (some "sidA") 1000) (by rfl)
  exact h

/-! ### C3 — revocation is checked before cryptographic validation -/

/-- A state whose blacklist contains exactly the token string `tR`. -/
def revokedState : SecState :=
  { emptyState with token_blacklist := setAdd emptyState.token_blacklist "tR" }

/-- A token whose signature does not verify under the server key. -/
def badSigToken : Token :=
  { mkToken "tBad" (some "s") 1000 with sigOk := false }

/-- C3: `verify_token` rejects a blacklisted token with `tokenRevoked` before
any cryptographic check (no signature or expiry hypothesis is needed); on a
non-blacklisted token the signature and expiry checks are still performed
(bad signature and expiry each produce their own failure); and a token whose
signature and expiry are valid passes the revocation check until its exact
string is added to the blacklist, after which `verify_token` fails with
`tokenRevoked`. -/
theorem claim3_revocation_checked_before_crypto (st : SecState) (tok : Token) (now : Nat) :
    (st.token_blacklist tok.raw = true → verify_token st tok now = .error .tokenRevoked) ∧
    (st.token_blacklist tok.raw = false → tok.sigOk = false →
        verify_token st tok now = .error (.invalidToken sigFailMsg)) ∧
    (st.token_blacklist tok.raw = false → tok.sigOk = true → tok.claims.exp ≤ now →
        verify_token st tok now = .error .tokenExpired) ∧
    (st.token_blacklist tok.raw = false → tok.sigOk = true → now < tok.claims.exp →
        tok.claims.aud = AUDIENCE → tok.claims.iss = ISSUER →
        verify_token st tok now = .ok tok.claims ∧
        verify_token { st with token_blacklist := setAdd st.token_blacklist tok.raw } tok now
            = .error .tokenRevoked) := by
  refine ⟨?_, ?_, ?_, ?_⟩
  · intro hb
    unfold verify_token
    simp [hb]
  · intro hb hs
    unfold verify_token jwtDecode
    simp [hb, hs]
  · intro hb hs he
    unfold verify_token jwtDecode
    simp [hb, hs, he]
  · intro hb hs he ha hi
    refine ⟨(verify_token_eq_ok_iff st tok now tok.claims).mpr ⟨rfl, hb, hs, he, ha, hi⟩, ?_⟩
    unfold verify_token
    simp [setAdd]

/-- C3 witness: the four branches of the theorem applied at concrete tokens
and states. -/
theorem claim3_revocation_checked_before_crypto_witness :
    verify_token revokedState (mkToken "tR" (some "s") 1000) 10 = .error .tokenRevoked ∧
    verify_token emptyState badSigToken 10 = .error (.invalidToken sigFailMsg) ∧
    verify_token emptyState (mkToken "tE" (some "s") 5) 10 = .error .tokenExpired ∧
    verify_token emptyState (mkToken "tV" (some "s") 1000) 10
        = .ok (mkToken "tV" (some "s") 1000).claims ∧
    verify_token { emptyState with
        token_blacklist := setAdd emptyState.token_blacklist "tV" }
      (mkToken "tV" (some "s") 1000) 10 = .error .tokenRevoked := by
  have h1 := (claim3_revocation_checked_before_crypto revokedState
    (mkToken "tR" (some "s") 1000) 10).1 (by rfl)
  have h2 := (claim3_revocation_checked_before_crypto emptyState badSigToken 10).2.1
    (by rfl) (by rfl)
  have h3 := (claim3_revocation_checked_before_crypto emptyState
    (mkToken "tE" (some "s") 5) 10).2.2.1 (by rfl) (by rfl) (by decide)
  have h4 := (claim3_revocation_checked_before_crypto emptyState
    (mkToken "tV" (some "s") 1000) 10).2.2.2 (by rfl) (by rfl) (by decide)
    (by rfl) (by rfl)
  exact ⟨h1, h2, h3, h4.1, h4.2⟩

/-! ### C2 — lockout rejects the next login attempt regardless of credentials -/

/-- A state where IP `1.2.3.4` has 5 recorded failures, the first at time 0
and the last at time 60. -/
def lockedState : SecState :=
  { emptyState with login_attempts := dictInsert emptyState.login_attempts "1.2.3.4" (5, 0, 60) }

/-- C2: once an IP's attempt record holds exactly `MAX_LOGIN_ATTEMPTS` (5)
failures and strictly less than `LOCKOUT_DURATION` (3600s) has elapsed since
the streak's first failure, the next login attempt fails with the 429
rate-limited error for ANY submitted credentials (correct ones included),
and the rejection carries the positive remaining lockout time. -/
theorem claim2_locked_ip_rejected_regardless_of_credentials
    (settings : AdminSettings) (st : SecState)
    (client_ip username password : String) (remember : Bool)
    (ua fs jti raw : String) (now f l : Nat)
    (hrec : st.login_attempts client_ip = some (MAX_LOGIN_ATTEMPTS, f, l))
    (hwin : now - f < LOCKOUT_DURATION) :
    (admin_login settings st client_ip username password remember ua fs jti raw now).1
        = .error (.rateLimited (LOCKOUT_DURATION - (now - f))) ∧
    0 < LOCKOUT_DURATION - (now - f) ∧
    httpStatus (.rateLimited (LOCKOUT_DURATION - (now - f))) = 429 := by
  have hchk : check_rate_limit st client_ip now
      = .error (.rateLimited (LOCKOUT_DURATION - (now - f))) := by
    unfold check_rate_limit
    rw [hrec]
    simp [hwin]
  refine ⟨?_, by omega, rfl⟩
  unfold admin_login
  rw [hchk]

/-- C2 witness: IP `1.2.3.4` with 5 recorded failures starting at time 0,
checked at time 100 with the CORRECT configured credentials. -/
theorem claim2_locked_ip_rejected_regardless_of_credentials_witness :
    (admin_login defaultSettings lockedState "1.2.3.4" "Mr.hacker" "Mr.hacker@19"
        false "ua" "sidF" "jtiF" "tF" 100).1
      = .error (.rateLimited (LOCKOUT_DURATION - (100 - 0))) ∧
    0 < LOCKOUT_DURATION - (100 - 0) ∧
    httpStatus (.rateLimited (LOCKOUT_DURATION - (100 - 0))) = 429 :=
  claim2_locked_ip_rejected_regardless_of_credentials defaultSettings lockedState
    "1.2.3.4" "Mr.hacker" "Mr.hacker@19" false "ua" "sidF" "jtiF" "tF" 100 0 60
    (by rfl) (by decide)

/-! ### C6 — elapsed lockout window deletes the record -/

/-- C6: when an IP's record is at least `LOCKOUT_DURATION` old (counted from
its first failure), `check_rate_limit` deletes the record entirely, and the
next failed login attempt therefore creates a fresh record with count
exactly 1 (first and last failure stamped with the attempt's time). -/
theorem claim6_elapsed_window_record_deleted_then_fresh_count
    (settings : AdminSettings) (st : SecState)
    (client_ip username password : String) (remember : Bool)
    (ua fs jti raw : String) (now cnt f l : Nat)
    (hrec : st.login_attempts client_ip = some (cnt, f, l))
    (helapsed : LOCKOUT_DURATION ≤ now - f)
    (hbad : ¬(username = settings.ADMIN_USERNAME ∧ password = settings.ADMIN_PASSWORD)) :
    check_rate_limit st client_ip now
        = .ok { st with login_attempts := dictDelete st.login_attempts client_ip } ∧
    (admin_login settings st client_ip username password remember ua fs jti raw now).1
        = .error .invalidCredentials ∧
    (admin_login settings st client_ip username password remember ua fs jti raw
        now).2.login_attempts client_ip = some (1, now, now) := by
  have hchk : check_rate_limit st client_ip now
      = .ok { st with login_attempts := dictDelete st.login_attempts client_ip } := by
    unfold check_rate_limit
    rw [hrec]
    have h1 : ¬(MAX_LOGIN_ATTEMPTS ≤ cnt ∧ now - f < LOCKOUT_DURATION) := by
      intro hc
      exact absurd hc.2 (not_lt.mpr helapsed)
    simp [h1, helapsed]
  refine ⟨hchk, ?_, ?_⟩
  · unfold admin_login
    rw [hchk]
    simp [hbad]
  · unfold admin_login
    rw [hchk]
    simp [hbad, track_failed_attempt, dictDelete, dictInsert]

/-- C6 witness: a record of 5 failures from time 0, next wrong-password
attempt at time 4000 (window elapsed). -/
theorem claim6_elapsed_window_record_deleted_then_fresh_count_witness :
    check_rate_limit lockedState "1.2.3.4" 4000
        = .ok { lockedState with
            login_attempts := dictDelete lockedState.login_attempts "1.2.3.4" } ∧
    (admin_login defaultSettings lockedState "1.2.3.4" "Mr.hacker" "wrong"
        false "ua" "sidF" "jtiF" "tF" 4000).1 = .error .invalidCredentials ∧
    (admin_login defaultSettings lockedState "1.2.3.4" "Mr.hacker" "wrong"
        false "ua" "sidF" "jtiF" "tF" 4000).2.login_attempts "1.2.3.4"
      = some (1, 4000, 4000) :=
  claim6_elapsed_window_record_deleted_then_fresh_count defaultSettings lockedState
    "1.2.3.4" "Mr.hacker" "wrong" false "ua" "sidF" "jtiF" "tF" 4000 5 0 60
    (by rfl) (by decide) (by decide)

/-! ### C8 — a rate-limited attempt mutates no shared state -/

/-- C8: when the rate-limit check rejects a login attempt, `admin_login`
returns the pre-state unchanged — in particular the IP's attempt record
keeps its count and first-failure time, so lockout attempts neither extend
the lockout nor raise the count. -/
theorem claim8_rate_limited_attempt_leaves_state_unchanged
    (settings : AdminSettings) (st : SecState)
    (client_ip username password : String) (remember : Bool)
    (ua fs jti raw : String) (now cnt f l : Nat)
    (hrec : st.login_attempts client_ip = some (cnt, f, l))
    (hcnt : MAX_LOGIN_ATTEMPTS ≤ cnt)
    (hwin : now - f < LOCKOUT_DURATION) :
    (admin_login settings st client_ip username password remember ua fs jti raw now).2
        = st ∧
    (admin_login settings st client_ip username password remember ua fs jti raw
        now).2.login_attempts client_ip = some (cnt, f, l) ∧
    (admin_login settings st client_ip username password remember ua fs jti raw now).1
        = .error (.rateLimited (LOCKOUT_DURATION - (now - f))) := by
  have hchk : check_rate_limit st client_ip now
      = .error (.rateLimited (LOCKOUT_DURATION - (now - f))) := by
    unfold check_rate_limit
    rw [hrec]
    simp [hcnt, hwin]
  have hlogin : admin_login settings st client_ip username password remember ua fs jti raw now
      = (.error (.rateLimited (LOCKOUT_DURATION - (now - f))), st) := by
    unfold admin_login
    rw [hchk]
  rw [hlogin]
  exact ⟨rfl, hrec, rfl⟩

/-- C8 witness: a locked record of 5 failures from time 0, attempt at time
100 with wrong credentials. -/
theorem claim8_rate_limited_attempt_leaves_state_unchanged_witness :
    (admin_login defaultSettings lockedState "1.2.3.4" "x" "y"
        false "ua" "sidF" "jtiF" "tF" 100).2 = lockedState ∧
    (admin_login defaultSettings lockedState "1.2.3.4" "x" "y"
        false "ua" "sidF" "jtiF" "tF" 100).2.login_attempts "1.2.3.4"
      = some (5, 0, 60) ∧
    (admin_login defaultSettings lockedState "1.2.3.4" "x" "y"
        false "ua" "sidF" "jtiF" "tF" 100).1
      = .error (.rateLimited (LOCKOUT_DURATION - (100 - 0))) :=
  claim8_rate_limited_attempt_leaves_state_unchanged defaultSettings lockedState
    "1.2.3.4" "x" "y" false "ua" "sidF" "jtiF" "tF" 100 5 0 60
    (by rfl) (by decide) (by decide)

/-! ### C4 — emergency lockdown deletes exactly the caller's other sessions -/

/-- C4: emergency lockdown invoked with claims naming the caller's session A
keeps A (with unchanged metadata), deletes every other session of the same
user, leaves every session of any other user untouched, and a subsequent
request with a valid token carrying one of the deleted session ids fails
with the session-expired error. -/
theorem claim4_emergency_lockdown_scoped_to_caller
    (st : SecState) (p : Claims) (A : String) (dA : SessionData)
    (hA : p.session_id = some A)
    (hAreg : st.active_sessions A = some dA)
    (_hAU : dA.username = p.sub) :
    (emergency_lockdown st p).active_sessions A = some dA ∧
    (∀ B dB, B ≠ A → st.active_sessions B = some dB → dB.username = p.sub →
        (emergency_lockdown st p).active_sessions B = none) ∧
    (∀ s dS, st.active_sessions s = some dS → dS.username ≠ p.sub →
        (emergency_lockdown st p).active_sessions s = some dS) ∧
    (∀ B dB now tokB, B ≠ A → B ≠ "" → st.active_sessions B = some dB →
        dB.username = p.sub → st.token_blacklist tokB.raw = false →
        tokB.sigOk = true → now < tokB.claims.exp →
        tokB.claims.aud = AUDIENCE → tokB.claims.iss = ISSUER →
        tokB.claims.session_id = some B →
        verify_admin_token (emergency_lockdown st p) (some tokB) now
            = .error .sessionExpired) := by
  refine ⟨?_, ?_, ?_, ?_⟩
  · simp [emergency_lockdown, hAreg, hA]
  · intro B dB hBA hBreg hBU
    simp [emergency_lockdown, hBreg, hA, hBU, hBA]
  · intro s dS hSreg hSU
    simp [emergency_lockdown, hSreg, hSU]
  · intro B dB now tokB hBA hBne hBreg hBU hbl hsig hexp haud hiss hsid
    have hgone : (emergency_lockdown st p).active_sessions B = none := by
      simp [emergency_lockdown, hBreg, hA, hBU, hBA]
    have hok : verify_token (emergency_lockdown st p) tokB now = .ok tokB.claims :=
      (verify_token_eq_ok_iff _ tokB now _).mpr ⟨rfl, hbl, hsig, hexp, haud, hiss⟩
    exact verify_admin_token_session_expired _ tokB now B hok hsid hBne hgone

/-- C4 witness: user `Mr.hacker` with sessions `sidA` (caller), `sidB`,
`sidC`, and user `other` with `sidD`. -/
theorem claim4_emergency_lockdown_scoped_to_caller_witness :
    (emergency_lockdown fourSessionState (mkClaims (some "sidA") 1000)).active_sessions "sidA"
        = some hackerSession ∧
    (emergency_lockdown fourSessionState (mkClaims (some "sidA") 1000)).active_sessions "sidB"
        = none ∧
    (emergency_lockdown fourSessionState (mkClaims (some "sidA") 1000)).active_sessions "sidD"
        = some otherSession ∧
    verify_admin_token (emergency_lockdown fourSessionState (mkClaims (some "sidA") 1000))
        (some (mkToken "tB" (some "sidB") 1000)) 10 = .error .sessionExpired := by
  have h := claim4_emergency_lockdown_scoped_to_caller fourSessionState
    (mkClaims (some "sidA") 1000) "sidA" hackerSession rfl (by rfl) rfl
  refine ⟨h.1, h.2.1 "sidB" hackerSession (by decide) (by rfl) rfl, ?_, ?_⟩
  · exact h.2.2.1 "sidD" otherSession (by rfl) (by decide)
  · exact h.2.2.2 "sidB" hackerSession 10 (mkToken "tB" (some "sidB") 1000)
      (by decide) (by decide) (by rfl) rfl rfl rfl (by decide) rfl rfl rfl

/-! ### C5 — logout removes exactly one session and blacklists exactly one token -/

/-- Unfolding equation for `admin_logout` on a verifiable token whose claims
carry a session id. -/
theorem admin_logout_valid_token_eq (st : SecState) (tok : Token) (now : Nat) (sid : String)
    (hok : verify_token st tok now = .ok tok.claims)
    (hsid : tok.claims.session_id = some sid) :
    admin_logout st (some tok) now =
      ({ st with active_sessions := dictDelete st.active_sessions sid,
                 token_blacklist := setAdd st.token_blacklist tok.raw }, true) := by
  simp only [admin_logout]
  rw [hok]
  simp only [hsid]

/-- C5: logging out with a verifiable token deletes exactly the session named
by the token's session_id (every other registry entry is untouched), adds
exactly the presented token string to the revocation set (membership of every
other string is untouched), leaves the attempt tracker alone, and any other
previously accepted token for a different session is still accepted. -/
theorem claim5_logout_exact_frame
    (st : SecState) (tok : Token) (now : Nat) (sid : String)
    (hbl : st.token_blacklist tok.raw = false) (hsig : tok.sigOk = true)
    (hexp : now < tok.claims.exp) (haud : tok.claims.aud = AUDIENCE)
    (hiss : tok.claims.iss = ISSUER) (hsid : tok.claims.session_id = some sid) :
    (admin_logout st (some tok) now).1.active_sessions sid = none ∧
    (∀ s, s ≠ sid →
        (admin_logout st (some tok) now).1.active_sessions s = st.active_sessions s) ∧
    (admin_logout st (some tok) now).1.token_blacklist tok.raw = true ∧
    (∀ r, r ≠ tok.raw →
        (admin_logout st (some tok) now).1.token_blacklist r = st.token_blacklist r) ∧
    (admin_logout st (some tok) now).1.login_attempts = st.login_attempts ∧
    (∀ tok2 now2, tok2.raw ≠ tok.raw →
        verify_admin_token st (some tok2) now2 = .ok tok2.claims →
        (∀ sid2, tok2.claims.session_id = some sid2 → sid2 ≠ sid) →
        verify_admin_token (admin_logout st (some tok) now).1 (some tok2) now2
            = .ok tok2.claims) := by
  have hok : verify_token st tok now = .ok tok.claims :=
    (verify_token_eq_ok_iff st tok now _).mpr ⟨rfl, hbl, hsig, hexp, haud, hiss⟩
  have hlg := admin_logout_valid_token_eq st tok now sid hok hsid
  refine ⟨?_, ?_, ?_, ?_, ?_, ?_⟩
  · rw [hlg]
    simp [dictDelete]
  · intro s hs
    rw [hlg]
    simp [dictDelete, hs]
  · rw [hlg]
    simp [setAdd]
  · intro r hr
    rw [hlg]
    simp [setAdd, hr]
  · rw [hlg]
  · intro tok2 now2 hraw hacc hsid2
    obtain ⟨-, hok2, hsess2⟩ := (verify_admin_token_eq_ok_iff st tok2 now2 _).mp hacc
    obtain ⟨-, hbl2, hsig2, hexp2, haud2, hiss2⟩ :=
      (verify_token_eq_ok_iff st tok2 now2 _).mp hok2
    refine (verify_admin_token_eq_ok_iff _ tok2 now2 _).mpr ⟨rfl, ?_, ?_⟩
    · refine (verify_token_eq_ok_iff _ tok2 now2 _).mpr ⟨rfl, ?_, hsig2, hexp2, haud2, hiss2⟩
      rw [hlg]
      simp [setAdd, hraw, hbl2]
    · intro s2 hs2 hne2
      have hdiff : s2 ≠ sid := hsid2 s2 hs2
      rw [hlg]
      simp only [dictDelete]
      simp [hdiff]
      exact hsess2 s2 hs2 hne2

/-- C5 witness: logging out the `sidA` token from the four-session registry;
the `sidB` token stays valid. -/
theorem claim5_logout_exact_frame_witness :
    (admin_logout fourSessionState (some (mkToken "tA" (some "sidA") 1000)) 10).1.active_sessions "sidA" = none ∧
    (admin_logout fourSessionState (some (mkToken "tA" (some "sidA") 1000)) 10).1.active_sessions "sidB" = fourSessionState.active_sessions "sidB" ∧
    (admin_logout fourSessionState (some (mkToken "tA" (some "sidA") 1000)) 10).1.token_blacklist "tA" = true ∧
    (admin_logout fourSessionState (some (mkToken "tA" (some "sidA") 1000)) 10).1.token_blacklist "tB" = fourSessionState.token_blacklist "tB" ∧
    (admin_logout fourSessionState (some (mkToken "tA" (some "sidA") 1000)) 10).1.login_attempts = fourSessionState.login_attempts ∧
    verify_admin_token (admin_logout fourSessionState (some (mkToken "tA" (some "sidA") 1000)) 10).1
        (some (mkToken "tB" (some "sidB") 1000)) 10
      = .ok (mkToken "tB" (some "sidB") 1000).claims := by
  have h := claim5_logout_exact_frame fourSessionState
    (mkToken "tA" (some "sidA") 1000) 10 "sidA" rfl rfl (by decide) rfl rfl rfl
  refine ⟨h.1, h.2.1 "sidB" (by decide), h.2.2.1, h.2.2.2.1 "tB" (by decide),
    h.2.2.2.2.1, ?_⟩
  refine h.2.2.2.2.2 (mkToken "tB" (some "sidB") 1000) 10 (by decide) (by rfl) ?_
  intro s2 hs2
  simp [mkToken, mkClaims] at hs2
  subst hs2
  decide

/-! ### C9 — reset-security clears attempts and blacklist, not sessions -/

/-- C9: after a valid logout (which revokes the presented token and removes
its session) followed by reset-security, the failed-attempt map and the
revocation set are empty while the session registry is exactly the
post-logout one; the logged-out token — rejected as revoked before the reset
— now passes `verify_token` again and is rejected only by the session check
of `verify_admin_token`. -/
theorem claim9_reset_security_clears_attempts_and_blacklist_only
    (st : SecState) (tok : Token) (now now2 : Nat) (sid : String)
    (hbl : st.token_blacklist tok.raw = false) (hsig : tok.sigOk = true)
    (hexp : now < tok.claims.exp) (hexp2 : now2 < tok.claims.exp)
    (haud : tok.claims.aud = AUDIENCE) (hiss : tok.claims.iss = ISSUER)
    (hsid : tok.claims.session_id = some sid) (hne : sid ≠ "") :
    (∀ ip, (reset_security (admin_logout st (some tok) now).1).login_attempts ip = none) ∧
    (∀ r, (reset_security (admin_logout st (some tok) now).1).token_blacklist r = false) ∧
    (reset_security (admin_logout st (some tok) now).1).active_sessions
        = (admin_logout st (some tok) now).1.active_sessions ∧
    (admin_logout st (some tok) now).1.token_blacklist tok.raw = true ∧
    verify_admin_token (admin_logout st (some tok) now).1 (some tok) now2
        = .error .tokenRevoked ∧
    verify_token (reset_security (admin_logout st (some tok) now).1) tok now2
        = .ok tok.claims ∧
    verify_admin_token (reset_security (admin_logout st (some tok) now).1) (some tok) now2
        = .error .sessionExpired := by
  have hok : verify_token st tok now = .ok tok.claims :=
    (verify_token_eq_ok_iff st tok now _).mpr ⟨rfl, hbl, hsig, hexp, haud, hiss⟩
  have hlg := admin_logout_valid_token_eq st tok now sid hok hsid
  have hbl1 : (admin_logout st (some tok) now).1.token_blacklist tok.raw = true := by
    rw [hlg]
    simp [setAdd]
  have hrevoked : verify_token (admin_logout st (some tok) now).1 tok now2
      = .error .tokenRevoked := by
    unfold verify_token
    simp [hbl1]
  have hok2 : verify_token (reset_security (admin_logout st (some tok) now).1) tok now2
      = .ok tok.claims :=
    (verify_token_eq_ok_iff _ tok now2 _).mpr ⟨rfl, rfl, hsig, hexp2, haud, hiss⟩
  have hgone : (reset_security (admin_logout st (some tok) now).1).active_sessions sid
      = none := by
    rw [hlg]
    simp [reset_security, dictDelete]
  refine ⟨fun ip => rfl, fun r => rfl, rfl, hbl1, ?_, hok2, ?_⟩
  · exact verify_admin_token_eq_error_of_verify_token _ tok now2 _ hrevoked
  · exact verify_admin_token_session_expired _ tok now2 sid hok2 hsid hne hgone

/-- C9 witness: logout of the `sidA` token at time 10, reset at time 20. -/
theorem claim9_reset_security_clears_attempts_and_blacklist_only_witness :
    (∀ ip, (reset_security (admin_logout fourSessionState
        (some (mkToken "tA" (some "sidA") 1000)) 10).1).login_attempts ip = none) ∧
    (∀ r, (reset_security (admin_logout fourSessionState
        (some (mkToken "tA" (some "sidA") 1000)) 10).1).token_blacklist r = false) ∧
    (reset_security (admin_logout fourSessionState
        (some (mkToken "tA" (some "sidA") 1000)) 10).1).active_sessions
      = (admin_logout fourSessionState
        (some (mkToken "tA" (some "sidA") 1000)) 10).1.active_sessions ∧
    (admin_logout fourSessionState
        (some (mkToken "tA" (some "sidA") 1000)) 10).1.token_blacklist "tA" = true ∧
    verify_admin_token (admin_logout fourSessionState
        (some (mkToken "tA" (some "sidA") 1000)) 10).1
        (some (mkToken "tA" (some "sidA") 1000)) 20 = .error .tokenRevoked ∧
    verify_token (reset_security (admin_logout fourSessionState
        (some (mkToken "tA" (some "sidA") 1000)) 10).1)
        (mkToken "tA" (some "sidA") 1000) 20 = .ok (mkToken "tA" (some "sidA") 1000).claims ∧
    verify_admin_token (reset_security (admin_logout fourSessionState
        (some (mkToken "tA" (some "sidA") 1000)) 10).1)
        (some (mkToken "tA" (some "sidA") 1000)) 20 = .error .sessionExpired :=
  claim9_reset_security_clears_attempts_and_blacklist_only fourSessionState
    (mkToken "tA" (some "sidA") 1000) 10 20 "sidA"
    rfl rfl (by decide) (by decide) rfl rfl rfl (by decide)

/-! ### C10 — terminate-session always reports success -/

/-- C10: `terminate_session` answers `success = True, "Session terminated
successfully"` for every session_id argument; when the session_id is not
registered, or is registered to a user other than the caller's `sub` claim,
the registry (the whole state) is left unchanged. -/
theorem claim10_terminate_session_always_reports_success
    (st : SecState) (p : Claims) (session_id : String) :
    (terminate_session st p session_id).2
        = { success := true, message := "Session terminated successfully" } ∧
    (st.active_sessions session_id = none → (terminate_session st p session_id).1 = st) ∧
    (∀ d, st.active_sessions session_id = some d → d.username ≠ p.sub →
        (terminate_session st p session_id).1 = st) := by
  refine ⟨rfl, ?_, ?_⟩
  · intro h
    simp [terminate_session, h]
  · intro d hd hne
    simp [terminate_session, hd, hne]

/-- C10 witness: an unregistered id `ghost` and the other user's session
`sidD`, terminated by a caller whose `sub` is `Mr.hacker`. -/
theorem claim10_terminate_session_always_reports_success_witness :
    (terminate_session fourSessionState (mkClaims (some "sidA") 1000) "ghost").2
        = { success := true, message := "Session terminated successfully" } ∧
    (terminate_session fourSessionState (mkClaims (some "sidA") 1000) "ghost").1
        = fourSessionState ∧
    (terminate_session fourSessionState (mkClaims (some "sidA") 1000) "sidD").1
        = fourSessionState := by
  have h1 := claim10_terminate_session_always_reports_success fourSessionState
    (mkClaims (some "sidA") 1000) "ghost"
  have h2 := claim10_terminate_session_always_reports_success fourSessionState
    (mkClaims (some "sidA") 1000) "sidD"
  exact ⟨h1.1, h1.2.1 (by rfl), h2.2.2 otherSession (by rfl) (by decide)⟩

/-! ### C7 — failure responses are structured, but the invalid-token detail
embeds the JWT library's exception message -/

/-- Every error of `verify_token` is one of five fixed failures. -/
theorem verify_token_error_cases (st : SecState) (tok : Token) (now : Nat) (e : AuthError)
    (h : verify_token st tok now = .error e) :
    e = .tokenRevoked ∨ e = .tokenExpired ∨ e = .invalidToken sigFailMsg ∨
    e = .invalidToken audienceFailMsg ∨ e = .invalidIssuer := by
  cases hb : st.token_blacklist tok.raw <;>
    cases hs : tok.sigOk <;>
      by_cases he : tok.claims.exp ≤ now <;>
        by_cases ha : tok.claims.aud = AUDIENCE <;>
          by_cases hi : tok.claims.iss = ISSUER <;>
            simp_all [verify_token, jwtDecode]

/-- Every error of `verify_admin_token` is one of seven fixed failures. -/
theorem verify_admin_token_error_cases (st : SecState) (tok? : Option Token) (now : Nat)
    (e : AuthError) (h : verify_admin_token st tok? now = .error e) :
    e = .notAuthenticated ∨ e = .tokenRevoked ∨ e = .tokenExpired ∨
    e = .invalidToken sigFailMsg ∨ e = .invalidToken audienceFailMsg ∨
    e = .invalidIssuer ∨ e = .sessionExpired := by
  cases tok? with
  | none =>
    simp [verify_admin_token] at h
    simp [h]
  | some tok =>
    rw [verify_admin_token_some_eq] at h
    cases hv : verify_token st tok now with
    | error e' =>
      rw [hv] at h
      simp at h
      subst h
      have := verify_token_error_cases st tok now e' hv
      tauto
    | ok q =>
      rw [hv] at h
      cases hsid : q.session_id with
      | none => simp [hsid] at h
      | some sid =>
        simp only [hsid] at h
        split_ifs at h <;> simp_all

/-- Every error of `check_rate_limit` is a rate-limited failure. -/
theorem check_rate_limit_error_cases (st : SecState) (ip : String) (now : Nat)
    (e : AuthError) (h : check_rate_limit st ip now = .error e) :
    ∃ r, e = .rateLimited r := by
  cases hrec : st.login_attempts ip with
  | none =>
    simp [check_rate_limit, hrec] at h
  | some t =>
    obtain ⟨a, f, l⟩ := t
    by_cases h1 : MAX_LOGIN_ATTEMPTS ≤ a ∧ now - f < LOCKOUT_DURATION
    · simp [check_rate_limit, hrec, h1] at h
      exact ⟨LOCKOUT_DURATION - (now - f), h.symm⟩
    · by_cases h2 : LOCKOUT_DURATION ≤ now - f <;>
        simp [check_rate_limit, hrec, h1, h2] at h

/-- C7 counterexample: a signed, unexpired, non-blacklisted token whose
audience claim is wrong is answered with `detail = "Invalid token. " ++ the
PyJWT exception message` — the handler's `f"Invalid token: {str(e)}"`
(admin.py line 99) surfaces the library exception message verbatim, which
the claim says never happens. -/
theorem claim7_counterexample_exception_message_surfaced :
    verify_token emptyState { mkToken "tW" (some "s") 1000 with
        claims := { mkClaims (some "s") 1000 with aud := "wrong-audience" } } 10
      = .error (.invalidToken audienceFailMsg) ∧
    httpDetail (.invalidToken audienceFailMsg) = "Invalid token: " ++ audienceFailMsg :=
  ⟨rfl, rfl⟩

/-- C7 (amended): every failure of the composed authentication decision is a
structured error with HTTP status 401 whose reason string is drawn from a
fixed finite set (so no stack traces or secrets are surfaced — but the
invalid-token reasons DO embed the JWT library's exception message), and
every failure of the login route is either the fixed invalid-credentials
401 or a rate-limited 429. -/
theorem claim7_structured_failure_responses :
    (∀ st tok? now e, verify_admin_token st tok? now = .error e →
        httpStatus e = 401 ∧
        httpDetail e ∈ ["Not authenticated", "Token revoked", "Token expired",
          "Invalid token: " ++ sigFailMsg, "Invalid token: " ++ audienceFailMsg,
          "Invalid token issuer", "Session expired"]) ∧
    (∀ settings st client_ip username password remember ua fs jti raw now e,
        (admin_login settings st client_ip username password remember ua fs jti raw
            now).1 = .error e →
        (e = .invalidCredentials ∧ httpStatus e = 401 ∧
            httpDetail e = "Invalid credentials") ∨
        (∃ r, e = .rateLimited r ∧ httpStatus e = 429)) := by
  constructor
  · intro st tok? now e h
    rcases verify_admin_token_error_cases st tok? now e h with
      h' | h' | h' | h' | h' | h' | h' <;> subst h' <;> simp [httpStatus, httpDetail]
  · intro settings st client_ip username password remember ua fs jti raw now e h
    unfold admin_login at h
    cases hc : check_rate_limit st client_ip now with
    | error e' =>
      rw [hc] at h
      simp at h
      obtain ⟨r, hr⟩ := check_rate_limit_error_cases st client_ip now e' hc
      subst h
      subst hr
      exact .inr ⟨r, rfl, rfl⟩
    | ok st1 =>
      rw [hc] at h
      split_ifs at h <;> simp_all
      subst h
      simp [httpStatus, httpDetail]

/-- C7 amended witness: the middleware part applied to a request with no
token, and the login part applied to a wrong-password attempt. -/
theorem claim7_structured_failure_responses_witness :
    (httpStatus .notAuthenticated = 401 ∧
      httpDetail .notAuthenticated ∈ ["Not authenticated", "Token revoked", "Token expired",
        "Invalid token: " ++ sigFailMsg, "Invalid token: " ++ audienceFailMsg,
        "Invalid token issuer", "Session expired"]) ∧
    ((AuthError.invalidCredentials = .invalidCredentials ∧
        httpStatus .invalidCredentials = 401 ∧
        httpDetail .invalidCredentials = "Invalid credentials") ∨
      (∃ r, AuthError.invalidCredentials = .rateLimited r ∧
        httpStatus .invalidCredentials = 429)) := by
  refine ⟨claim7_structured_failure_responses.1 emptyState none 0 .notAuthenticated rfl, ?_⟩
  exact claim7_structured_failure_responses.2 defaultSettings emptyState "1.2.3.4"
    "Mr.hacker" "wrong" false "ua" "sidF" "jtiF" "tF" 0 .invalidCredentials (by rfl)

end Portfolio
